import Mathlib

/-!
CabanaMD `SystemCommon` (src/system.h): domain creation, domain update, slice groupings.

A shallow embedding of the class `SystemCommon<t_device>`.

Conventions of the embedding.

* `T_X_FLOAT`, `T_FLOAT`, `T_V_FLOAT` and `double` values are rationals: the arithmetic of
  the source is read as exact arithmetic.  The one floating-point constant the code uses,
  `std::numeric_limits<T_X_FLOAT>::epsilon()`, is a field of the library record (the type
  `T_X_FLOAT` is declared in `types.h`, not in `system.h`).
* `int` and `T_INT` values are integers; an `int` that the code computes lies between
  `INT_MIN` and `INT_MAX`.  Converting to `int` a double whose value is outside that range,
  or is an infinity or a NaN, is undefined in the language: what it yields is a field of the
  library record, like epsilon (x86 yields `INT_MIN`).  An `int` subtraction wraps around.
* A double quotient is a rational, or no finite number when the divisor is zero.
* The Cabana / Cajita calls are fields of the record `Cajita`: each is taken to return a
  value, and nothing else is assumed about them.
* A `std::shared_ptr` is an `Option` (`none` is the null pointer).
* An operation returns the `Status` it ends with together with the state of the object at
  that point, so that what a throwing call has already assigned stays visible.
-/

namespace CabanaMD

/-- Values of a `std::array<T, 3>`, indexed by `0`, `1`, `2`. -/
abbrev Array3 (α : Type) := Fin 3 → α

/-- The tags `Cajita::Own` and `Cajita::Ghost`. -/
inductive Decomposition
  | Own
  | Ghost
  deriving DecidableEq, Repr

/-- The smallest `int`. -/
def INT_MIN : ℤ := -2147483648

/-- The largest `int`. -/
def INT_MAX : ℤ := 2147483647

/-- The library calls `SystemCommon` makes, over the library's global mesh and global grid
types, with the two facts about the platform the code depends on: the machine epsilon of
`T_X_FLOAT`, and what a conversion to `int` yields for a double that no `int` equals (given
as the integral value that is out of range, or `none` for an infinity or a NaN).
`createGlobalGrid` is always called with `MPI_COMM_WORLD` and the default
`DimBlockPartitioner<3>`, `ranksPerDimension` with `MPI_COMM_WORLD` and `{}`; the three
`local*` fields are `createLocalMesh` on a local grid (given by its global grid and halo
width in cells) followed by `lowCorner`, `highCorner`, `extent`. -/
structure Cajita (GlobalMesh GlobalGrid : Type) where
  epsilon : ℚ
  epsilon_pos : 0 < epsilon
  int_of_unrepresentable : Option ℤ → ℤ
  int_of_unrepresentable_range : ∀ v,
    INT_MIN ≤ int_of_unrepresentable v ∧ int_of_unrepresentable v ≤ INT_MAX
  ranksPerDimension : Array3 ℤ
  createUniformGlobalMesh : Array3 ℚ → Array3 ℚ → ℚ → GlobalMesh
  extent : GlobalMesh → Fin 3 → ℚ
  createGlobalGrid : GlobalMesh → Array3 Bool → GlobalGrid
  dimBlockId : GlobalGrid → Fin 3 → ℤ
  setNumCellAndOffset : GlobalGrid → Array3 ℤ → Array3 ℤ → GlobalGrid
  localLowCorner : GlobalGrid → ℤ → Decomposition → Fin 3 → ℚ
  localHighCorner : GlobalGrid → ℤ → Decomposition → Fin 3 → ℚ
  localExtent : GlobalGrid → ℤ → Decomposition → Fin 3 → ℚ

/-- A `Cajita::LocalGrid` as `createLocalGrid( global_grid, halo_width )` builds it: it keeps
the shared pointer to the manager's `global_grid` (so it is read through the manager's own
`global_grid` field) and the halo width in cells. -/
structure LocalGrid where
  halo_cell_width : ℤ
  deriving DecidableEq, Repr

/-- The data members of `SystemCommon` (system.h lines 73-110). -/
structure SystemCommon (GlobalGrid : Type) where
  N : ℤ
  N_max : ℤ
  N_local : ℤ
  N_ghost : ℤ
  ntypes : ℤ
  atom_style : String
  mass : List ℚ
  global_mesh_x : ℚ
  global_mesh_y : ℚ
  global_mesh_z : ℚ
  grid_cell_size : ℚ
  grid_num_cells : ℤ
  local_mesh_x : ℚ
  local_mesh_y : ℚ
  local_mesh_z : ℚ
  local_mesh_lo_x : ℚ
  local_mesh_lo_y : ℚ
  local_mesh_lo_z : ℚ
  local_mesh_hi_x : ℚ
  local_mesh_hi_y : ℚ
  local_mesh_hi_z : ℚ
  ghost_mesh_lo_x : ℚ
  ghost_mesh_lo_y : ℚ
  ghost_mesh_lo_z : ℚ
  ghost_mesh_hi_x : ℚ
  ghost_mesh_hi_y : ℚ
  ghost_mesh_hi_z : ℚ
  halo_width : ℚ
  local_grid : Option LocalGrid
  global_grid : Option GlobalGrid
  ranks_per_dim : Array3 ℤ
  rank_dim_pos : Array3 ℤ
  boltz : ℚ
  mvv2e : ℚ
  dt : ℚ

/-- The members the constructor leaves unassigned (`halo_width`, `ranks_per_dim`,
`rank_dim_pos`): whatever values they hold after construction. -/
structure Unassigned where
  halo_width : ℚ
  ranks_per_dim : Array3 ℤ
  rank_dim_pos : Array3 ℤ

/-- The constructor `SystemCommon()` (lines 112-136).  The two grid pointers are default
constructed, that is null. -/
def SystemCommon.new {GlobalGrid : Type} (u : Unassigned) : SystemCommon GlobalGrid where
  N := 0
  N_max := 0
  N_local := 0
  N_ghost := 0
  ntypes := 1
  atom_style := "atomic"
  mass := List.replicate 1 0
  grid_cell_size := 0
  grid_num_cells := 2000
  global_mesh_x := 0
  global_mesh_y := 0
  global_mesh_z := 0
  local_mesh_lo_x := 0
  local_mesh_lo_y := 0
  local_mesh_lo_z := 0
  local_mesh_hi_x := 0
  local_mesh_hi_y := 0
  local_mesh_hi_z := 0
  ghost_mesh_lo_x := 0
  ghost_mesh_lo_y := 0
  ghost_mesh_lo_z := 0
  ghost_mesh_hi_x := 0
  ghost_mesh_hi_y := 0
  ghost_mesh_hi_z := 0
  local_mesh_x := 0
  local_mesh_y := 0
  local_mesh_z := 0
  mvv2e := 0
  boltz := 0
  dt := 0
  halo_width := u.halo_width
  local_grid := none
  global_grid := none
  ranks_per_dim := u.ranks_per_dim
  rank_dim_pos := u.rank_dim_pos

/-- How a call ends. -/
inductive Status
  /-- The call returns. -/
  | ok
  /-- The call throws `std::logic_error( what )`. -/
  | logic_error (what : String)
  /-- The call dereferences a null grid pointer. -/
  | null_pointer
  deriving DecidableEq, Repr

/-- The tolerance of the cubic check, `T_X_FLOAT( 100.0 ) * epsilon()` (lines 161, 165-166). -/
def tolerance {M G : Type} (env : Cajita M G) : ℚ := 100 * env.epsilon

/-- The double quotient `a / b`: no finite number (an infinity or a NaN) when the divisor is
zero. -/
def fdiv (a b : ℚ) : Option ℚ :=
  if b = 0 then none else some (a / b)

/-- The conversion to `int` of a double that holds an integral value, an infinity or a NaN
(`none`), as in `int n = std::ceil( x )`: the value itself when an `int` can hold it. -/
def to_int {M G : Type} (env : Cajita M G) (v : Option ℤ) : ℤ :=
  match v with
  | some z => if INT_MIN ≤ z ∧ z ≤ INT_MAX then z else env.int_of_unrepresentable (some z)
  | none => env.int_of_unrepresentable none

/-- The `int` that two's complement arithmetic gives for the integer `z`: the result of an
`int` operation whose exact result is `z`. -/
def wrap_int (z : ℤ) : ℤ :=
  (z - INT_MIN) % 4294967296 + INT_MIN

/-- Round to nearest integer, halfway cases to the even neighbour: `std::rint` in the
default rounding mode. -/
def rint (q : ℚ) : ℤ :=
  if q - ⌊q⌋ < 1 / 2 then ⌊q⌋
  else if 1 / 2 < q - ⌊q⌋ then ⌊q⌋ + 1
  else if ⌊q⌋ % 2 = 0 then ⌊q⌋
  else ⌊q⌋ + 1

/-- The private `update_mesh_info()` (lines 255-274): reads the local mesh of `*local_grid`
and stores its corners and extents. -/
def update_mesh_info {M G : Type} (env : Cajita M G) (s : SystemCommon G) :
    Status × SystemCommon G :=
  match s.local_grid, s.global_grid with
  | some lg, some gg =>
    (Status.ok,
      { s with
        local_mesh_lo_x := env.localLowCorner gg lg.halo_cell_width Decomposition.Own 0
        local_mesh_lo_y := env.localLowCorner gg lg.halo_cell_width Decomposition.Own 1
        local_mesh_lo_z := env.localLowCorner gg lg.halo_cell_width Decomposition.Own 2
        local_mesh_hi_x := env.localHighCorner gg lg.halo_cell_width Decomposition.Own 0
        local_mesh_hi_y := env.localHighCorner gg lg.halo_cell_width Decomposition.Own 1
        local_mesh_hi_z := env.localHighCorner gg lg.halo_cell_width Decomposition.Own 2
        ghost_mesh_lo_x := env.localLowCorner gg lg.halo_cell_width Decomposition.Ghost 0
        ghost_mesh_lo_y := env.localLowCorner gg lg.halo_cell_width Decomposition.Ghost 1
        ghost_mesh_lo_z := env.localLowCorner gg lg.halo_cell_width Decomposition.Ghost 2
        ghost_mesh_hi_x := env.localHighCorner gg lg.halo_cell_width Decomposition.Ghost 0
        ghost_mesh_hi_y := env.localHighCorner gg lg.halo_cell_width Decomposition.Ghost 1
        ghost_mesh_hi_z := env.localHighCorner gg lg.halo_cell_width Decomposition.Ghost 2
        local_mesh_x := env.localExtent gg lg.halo_cell_width Decomposition.Own 0
        local_mesh_y := env.localExtent gg lg.halo_cell_width Decomposition.Own 1
        local_mesh_z := env.localExtent gg lg.halo_cell_width Decomposition.Own 2 })
  | _, _ => (Status.null_pointer, s)

/-- The three-argument `create_domain` (lines 149-192).  The assignments before the cubic
check (`halo_width`, `ranks_per_dim`, `grid_cell_size`) are in the state a throwing call
leaves.  Line 188 is the conversion to `int` of the ceiling of the double quotient
`ghost_cutoff / grid_cell_size`, and lines 189-191 follow it whatever it yields.  The
rationals have no infinity: every statement about the cell size below is made for a
non-zero `grid_num_cells` (the constructor sets `2000` and no method assigns it). -/
def create_domain {M G : Type} (env : Cajita M G) (s : SystemCommon G)
    (low_corner high_corner : Array3 ℚ) (ghost_cutoff : ℚ) : Status × SystemCommon G :=
  let s1 : SystemCommon G :=
    { s with
      halo_width := ghost_cutoff
      ranks_per_dim := env.ranksPerDimension
      grid_cell_size := (high_corner 0 - low_corner 0) / (s.grid_num_cells : ℚ) }
  if |(high_corner 0 - low_corner 0) - (high_corner 1 - low_corner 1)| > tolerance env then
    (Status.logic_error "Dimensions must be cubic", s1)
  else if |(high_corner 1 - low_corner 1) - (high_corner 2 - low_corner 2)| >
      tolerance env then
    (Status.logic_error "Dimensions must be cubic", s1)
  else
    let global_mesh := env.createUniformGlobalMesh low_corner high_corner s1.grid_cell_size
    let global_grid := env.createGlobalGrid global_mesh (fun _ => true)
    let s2 : SystemCommon G :=
      { s1 with
        global_mesh_x := env.extent global_mesh 0
        global_mesh_y := env.extent global_mesh 1
        global_mesh_z := env.extent global_mesh 2
        global_grid := some global_grid
        rank_dim_pos := fun d => env.dimBlockId global_grid d }
    let halo_width : ℤ := to_int env ((fdiv ghost_cutoff s2.grid_cell_size).map Int.ceil)
    update_mesh_info env { s2 with local_grid := some { halo_cell_width := halo_width } }

/-- The two-argument `create_domain` (lines 140-148). -/
def create_domain2 {M G : Type} (env : Cajita M G) (s : SystemCommon G)
    (low_corner high_corner : Array3 ℚ) : Status × SystemCommon G :=
  let ghost_cutoff : ℚ :=
    max (max (high_corner 0 - low_corner 0) (high_corner 2 - low_corner 1))
      (high_corner 2 - low_corner 2)
  create_domain env s low_corner high_corner ghost_cutoff

/-- The method `update_domain` (lines 195-209).  Lines 201 and 203 convert to `int` the
`std::rint` of a double quotient, line 206 subtracts in `int`. -/
def update_domain {M G : Type} (env : Cajita M G) (s : SystemCommon G)
    (low_corner high_corner : Array3 ℚ) : Status × SystemCommon G :=
  let cell_index_lo : Array3 ℤ := fun d =>
    to_int env ((fdiv (low_corner d) s.grid_cell_size).map rint)
  let cell_index_hi : Array3 ℤ := fun d =>
    to_int env ((fdiv (high_corner d) s.grid_cell_size).map rint)
  let num_cell : Array3 ℤ := fun d => wrap_int (cell_index_hi d - cell_index_lo d)
  match s.global_grid with
  | none => (Status.null_pointer, s)
  | some gg =>
    update_mesh_info env
      { s with global_grid := some (env.setNumCellAndOffset gg num_cell cell_index_lo) }

/-- The global mesh of the single-process stand-in for the library. -/
structure SerialMesh where
  low_corner : Array3 ℚ
  high_corner : Array3 ℚ
  cell_size : ℚ

/-- The global grid of the single-process stand-in for the library: the mesh with the number
of owned cells and the offset of the one block. -/
structure SerialGrid where
  mesh : SerialMesh
  num_cell : Array3 ℤ
  offset : Array3 ℤ

/-- A single-process stand-in for the library on x86 with `T_X_FLOAT = double` (machine
epsilon `2^-52`, `INT_MIN` from a conversion to `int` of a double that no `int` equals), on
which the operations are evaluated at concrete inputs.  The process grid is
`1 x 1 x 1`, the block owns every cell of the mesh, and a corner is the mesh's low corner
plus a number of cells. -/
def serial : Cajita SerialMesh SerialGrid where
  epsilon := 1 / 2 ^ 52
  epsilon_pos := by norm_num
  int_of_unrepresentable := fun _ => INT_MIN
  int_of_unrepresentable_range := fun _ => ⟨le_refl INT_MIN, (by decide : INT_MIN ≤ INT_MAX)⟩
  ranksPerDimension := fun _ => 1
  createUniformGlobalMesh := fun lo hi c => { low_corner := lo, high_corner := hi, cell_size := c }
  extent := fun m d => m.high_corner d - m.low_corner d
  createGlobalGrid := fun m _ =>
    { mesh := m
      num_cell := fun d => rint ((m.high_corner d - m.low_corner d) / m.cell_size)
      offset := fun _ => 0 }
  dimBlockId := fun _ _ => 0
  setNumCellAndOffset := fun g n o => { g with num_cell := n, offset := o }
  localLowCorner := fun g h dec d =>
    match dec with
    | Decomposition.Own => g.mesh.low_corner d + g.offset d * g.mesh.cell_size
    | Decomposition.Ghost => g.mesh.low_corner d + (g.offset d - h) * g.mesh.cell_size
  localHighCorner := fun g h dec d =>
    match dec with
    | Decomposition.Own => g.mesh.low_corner d + (g.offset d + g.num_cell d) * g.mesh.cell_size
    | Decomposition.Ghost =>
      g.mesh.low_corner d + (g.offset d + g.num_cell d + h) * g.mesh.cell_size
  localExtent := fun g h dec d =>
    match dec with
    | Decomposition.Own => g.num_cell d * g.mesh.cell_size
    | Decomposition.Ghost => (g.num_cell d + 2 * h) * g.mesh.cell_size

/-- A freshly constructed manager whose unassigned members hold zeros. -/
def fresh {G : Type} : SystemCommon G :=
  SystemCommon.new { halo_width := 0, ranks_per_dim := fun _ => 0, rank_dim_pos := fun _ => 0 }

/-- The spec's population invariant on the counters: `N_local + N_ghost ≤ N_max` and
`N_local ≤ N`. -/
def population_invariant {G : Type} (s : SystemCommon G) : Prop :=
  s.N_local + s.N_ghost ≤ s.N_max ∧ s.N_local ≤ s.N

/-- The six pure virtual per-field accessors (lines 238-243). -/
inductive Accessor
  | slice_x
  | slice_v
  | slice_f
  | slice_type
  | slice_id
  | slice_q
  deriving DecidableEq, Repr

/-- A storage backend, as far as slicing goes: what each of the six `virtual void slice_*()`
does to the object, whose state is `σ`. -/
structure Backend (σ : Type) where
  slice_x : σ → σ
  slice_v : σ → σ
  slice_f : σ → σ
  slice_type : σ → σ
  slice_id : σ → σ
  slice_q : σ → σ

/-- The method `slice_all` (lines 211-219). -/
def slice_all {σ : Type} (b : Backend σ) (s : σ) : σ :=
  let s := b.slice_x s
  let s := b.slice_v s
  let s := b.slice_f s
  let s := b.slice_type s
  let s := b.slice_id s
  b.slice_q s

/-- The method `slice_integrate` (lines 220-226). -/
def slice_integrate {σ : Type} (b : Backend σ) (s : σ) : σ :=
  let s := b.slice_x s
  let s := b.slice_v s
  let s := b.slice_f s
  b.slice_type s

/-- The method `slice_force` (lines 227-232). -/
def slice_force {σ : Type} (b : Backend σ) (s : σ) : σ :=
  let s := b.slice_x s
  let s := b.slice_f s
  b.slice_type s

/-- The method `slice_properties` (lines 233-237). -/
def slice_properties {σ : Type} (b : Backend σ) (s : σ) : σ :=
  let s := b.slice_v s
  b.slice_type s

/-- One call of the named accessor on a backend. -/
def Backend.call {σ : Type} (b : Backend σ) : Accessor → σ → σ
  | Accessor.slice_x => b.slice_x
  | Accessor.slice_v => b.slice_v
  | Accessor.slice_f => b.slice_f
  | Accessor.slice_type => b.slice_type
  | Accessor.slice_id => b.slice_id
  | Accessor.slice_q => b.slice_q

/-- The calls of a list made one after the other, first to last. -/
def Backend.calls {σ : Type} (b : Backend σ) (cs : List Accessor) (s : σ) : σ :=
  cs.foldl (fun st c => b.call c st) s

/-- The backend that only records which accessor was called: its state is the log of the
calls so far, oldest first. -/
def recorder : Backend (List Accessor) where
  slice_x := fun log => log ++ [Accessor.slice_x]
  slice_v := fun log => log ++ [Accessor.slice_v]
  slice_f := fun log => log ++ [Accessor.slice_f]
  slice_type := fun log => log ++ [Accessor.slice_type]
  slice_id := fun log => log ++ [Accessor.slice_id]
  slice_q := fun log => log ++ [Accessor.slice_q]

section lemmas

variable {M G : Type}

theorem fdiv_of_ne_zero (a b : ℚ) (h : b ≠ 0) : fdiv a b = some (a / b) := by
  unfold fdiv
  rw [if_neg h]

theorem to_int_of_range (env : Cajita M G) (z : ℤ) (h : INT_MIN ≤ z ∧ z ≤ INT_MAX) :
    to_int env (some z) = z := by
  simp [to_int, h]

theorem to_int_fdiv_of_range (env : Cajita M G) (num den : ℚ) (f : ℚ → ℤ) (z : ℤ) (hd : den ≠ 0)
    (hz : f (num / den) = z) (hr : INT_MIN ≤ z ∧ z ≤ INT_MAX) :
    to_int env ((fdiv num den).map f) = z := by
  rw [fdiv_of_ne_zero _ _ hd, Option.map_some', hz, to_int_of_range env z hr]

theorem to_int_range (env : Cajita M G) (v : Option ℤ) :
    INT_MIN ≤ to_int env v ∧ to_int env v ≤ INT_MAX := by
  unfold to_int
  cases v with
  | none => exact env.int_of_unrepresentable_range none
  | some z =>
    by_cases h : INT_MIN ≤ z ∧ z ≤ INT_MAX
    · simp only [h, and_self, if_true]
    · simp only [h, if_false]
      exact env.int_of_unrepresentable_range (some z)

theorem create_domain_of_raise (env : Cajita M G) (s : SystemCommon G)
    (low high : Array3 ℚ) (cutoff : ℚ)
    (h : tolerance env < |(high 0 - low 0) - (high 1 - low 1)| ∨
      tolerance env < |(high 1 - low 1) - (high 2 - low 2)|) :
    create_domain env s low high cutoff =
      (Status.logic_error "Dimensions must be cubic",
        { s with
          halo_width := cutoff
          ranks_per_dim := env.ranksPerDimension
          grid_cell_size := (high 0 - low 0) / (s.grid_num_cells : ℚ) }) := by
  unfold create_domain
  by_cases h1 : tolerance env < |(high 0 - low 0) - (high 1 - low 1)|
  · simp [h1]
  · have h2 : tolerance env < |(high 1 - low 1) - (high 2 - low 2)| := by tauto
    simp [h1, h2]

theorem create_domain_status_of_pass (env : Cajita M G) (s : SystemCommon G)
    (low high : Array3 ℚ) (cutoff : ℚ)
    (h1 : ¬ tolerance env < |(high 0 - low 0) - (high 1 - low 1)|)
    (h2 : ¬ tolerance env < |(high 1 - low 1) - (high 2 - low 2)|) :
    (create_domain env s low high cutoff).1 = Status.ok := by
  unfold create_domain
  simp only [gt_iff_lt, h1, h2, if_false]
  simp [update_mesh_info]

theorem create_domain_local_grid_of_pass (env : Cajita M G) (s : SystemCommon G)
    (low high : Array3 ℚ) (cutoff : ℚ)
    (h1 : ¬ tolerance env < |(high 0 - low 0) - (high 1 - low 1)|)
    (h2 : ¬ tolerance env < |(high 1 - low 1) - (high 2 - low 2)|) :
    (create_domain env s low high cutoff).2.local_grid =
      some { halo_cell_width :=
        to_int env ((fdiv cutoff ((high 0 - low 0) / (s.grid_num_cells : ℚ))).map Int.ceil) } := by
  unfold create_domain
  simp only [gt_iff_lt, h1, h2, if_false]
  simp [update_mesh_info]

theorem create_domain_halo_width (env : Cajita M G) (s : SystemCommon G)
    (low high : Array3 ℚ) (cutoff : ℚ) :
    (create_domain env s low high cutoff).2.halo_width = cutoff := by
  unfold create_domain
  simp only [gt_iff_lt]
  split_ifs <;> simp [update_mesh_info]

end lemmas

/-! ## C1: when `create_domain` raises -/

section C1

variable {M G : Type}

/-- C1 as stated fails: on the box `(0,0,0)`-`(1, 1 + 100ε, 1 + 200ε)` with `ε = 2^-52` the
x and z extents differ by `200ε`, more than the tolerance `100ε`, yet `create_domain` does
not raise (it returns), because x is compared with y and y with z only. -/
theorem create_domain_raises_iff_three_pairs_counterexample :
    (create_domain serial fresh ![0, 0, 0] ![1, 1 + 100 / 2 ^ 52, 1 + 200 / 2 ^ 52] 1).1 =
        Status.ok ∧
      ¬ ((create_domain serial fresh ![0, 0, 0] ![1, 1 + 100 / 2 ^ 52, 1 + 200 / 2 ^ 52] 1).1 =
          Status.logic_error "Dimensions must be cubic" ↔
        (tolerance serial <
            |((![1, 1 + 100 / 2 ^ 52, 1 + 200 / 2 ^ 52] : Array3 ℚ) 0 - (![0, 0, 0] : Array3 ℚ) 0) -
              ((![1, 1 + 100 / 2 ^ 52, 1 + 200 / 2 ^ 52] : Array3 ℚ) 1 - (![0, 0, 0] : Array3 ℚ) 1)| ∨
          tolerance serial <
            |((![1, 1 + 100 / 2 ^ 52, 1 + 200 / 2 ^ 52] : Array3 ℚ) 1 - (![0, 0, 0] : Array3 ℚ) 1) -
              ((![1, 1 + 100 / 2 ^ 52, 1 + 200 / 2 ^ 52] : Array3 ℚ) 2 - (![0, 0, 0] : Array3 ℚ) 2)| ∨
          tolerance serial <
            |((![1, 1 + 100 / 2 ^ 52, 1 + 200 / 2 ^ 52] : Array3 ℚ) 0 - (![0, 0, 0] : Array3 ℚ) 0) -
              ((![1, 1 + 100 / 2 ^ 52, 1 + 200 / 2 ^ 52] : Array3 ℚ) 2 - (![0, 0, 0] : Array3 ℚ) 2)|)) := by
  have hok : (create_domain serial fresh ![0, 0, 0] ![1, 1 + 100 / 2 ^ 52, 1 + 200 / 2 ^ 52] 1).1 =
      Status.ok := by
    rw [create_domain_status_of_pass] <;>
      norm_num [fresh, SystemCommon.new, tolerance, serial, abs_le]
  refine ⟨hok, ?_⟩
  rw [hok]
  intro h
  have h3 : tolerance serial <
      |((![1, 1 + 100 / 2 ^ 52, 1 + 200 / 2 ^ 52] : Array3 ℚ) 0 - (![0, 0, 0] : Array3 ℚ) 0) -
        ((![1, 1 + 100 / 2 ^ 52, 1 + 200 / 2 ^ 52] : Array3 ℚ) 2 - (![0, 0, 0] : Array3 ℚ) 2)| := by
    norm_num [tolerance, serial, lt_abs]
  exact absurd (h.mpr (Or.inr (Or.inr h3))) (by decide)

/-- C1, amended: `create_domain` raises `std::logic_error( "Dimensions must be cubic" )`
exactly when `|ex - ey|` or `|ey - ez|` exceeds the tolerance `100 * epsilon` (it raises
nothing else), and a box on which it does not raise has `|ex - ey|` and `|ey - ez|` within
the tolerance and `|ex - ez|` within twice the tolerance. -/
theorem create_domain_raises_iff (env : Cajita M G) (s : SystemCommon G)
    (low high : Array3 ℚ) (cutoff : ℚ) :
    ((create_domain env s low high cutoff).1 = Status.logic_error "Dimensions must be cubic" ↔
        (tolerance env < |(high 0 - low 0) - (high 1 - low 1)| ∨
          tolerance env < |(high 1 - low 1) - (high 2 - low 2)|)) ∧
      (∀ what, (create_domain env s low high cutoff).1 = Status.logic_error what →
        what = "Dimensions must be cubic") ∧
      ((∀ what, (create_domain env s low high cutoff).1 ≠ Status.logic_error what) →
        |(high 0 - low 0) - (high 1 - low 1)| ≤ tolerance env ∧
          |(high 1 - low 1) - (high 2 - low 2)| ≤ tolerance env ∧
          |(high 0 - low 0) - (high 2 - low 2)| ≤ 2 * tolerance env) := by
  by_cases h : tolerance env < |(high 0 - low 0) - (high 1 - low 1)| ∨
      tolerance env < |(high 1 - low 1) - (high 2 - low 2)|
  · rw [create_domain_of_raise env s low high cutoff h]
    refine ⟨by simp [h], ?_, ?_⟩
    · intro what hw
      simpa using hw.symm
    · intro hn
      exact absurd rfl (hn _)
  · have h1 : ¬ tolerance env < |(high 0 - low 0) - (high 1 - low 1)| := fun h' => h (Or.inl h')
    have h2 : ¬ tolerance env < |(high 1 - low 1) - (high 2 - low 2)| := fun h' => h (Or.inr h')
    have hst := create_domain_status_of_pass env s low high cutoff h1 h2
    have hne : ∀ what, (create_domain env s low high cutoff).1 ≠ Status.logic_error what := by
      intro what
      rw [hst]
      simp
    refine ⟨⟨fun hr => absurd hr (hne _), fun hr => absurd hr h⟩,
      fun what hw => absurd hw (hne what), fun _ => ?_⟩
    have a1 := not_lt.mp h1
    have a2 := not_lt.mp h2
    refine ⟨a1, a2, ?_⟩
    have e : (high 0 - low 0) - (high 2 - low 2) =
        ((high 0 - low 0) - (high 1 - low 1)) + ((high 1 - low 1) - (high 2 - low 2)) := by
      ring
    rw [e]
    calc |((high 0 - low 0) - (high 1 - low 1)) + ((high 1 - low 1) - (high 2 - low 2))|
        ≤ |(high 0 - low 0) - (high 1 - low 1)| + |(high 1 - low 1) - (high 2 - low 2)| :=
          abs_add _ _
      _ ≤ 2 * tolerance env := by linarith

end C1

/-! ## C2: the state a raising `create_domain` leaves -/

section C2

variable {M G : Type}

/-- C2 as stated fails: on the non-cubic box `(0,0,0)`-`(10,10,5)` the call raises, and the
freshly constructed manager it was made on is no longer in its freshly constructed state:
`grid_cell_size` is `10 / 2000` instead of `0` and `halo_width` is the cutoff. -/
theorem create_domain_raise_leaves_state_counterexample :
    (create_domain serial fresh ![0, 0, 0] ![10, 10, 5] 3).1 =
        Status.logic_error "Dimensions must be cubic" ∧
      (fresh : SystemCommon SerialGrid).grid_cell_size = 0 ∧
      (create_domain serial fresh ![0, 0, 0] ![10, 10, 5] 3).2.grid_cell_size = 1 / 200 ∧
      (fresh : SystemCommon SerialGrid).halo_width = 0 ∧
      (create_domain serial fresh ![0, 0, 0] ![10, 10, 5] 3).2.halo_width = 3 ∧
      (create_domain serial fresh ![0, 0, 0] ![10, 10, 5] 3).2 ≠ fresh := by
  have h : tolerance serial <
        |((![10, 10, 5] : Array3 ℚ) 0 - (![0, 0, 0] : Array3 ℚ) 0) -
          ((![10, 10, 5] : Array3 ℚ) 1 - (![0, 0, 0] : Array3 ℚ) 1)| ∨
      tolerance serial <
        |((![10, 10, 5] : Array3 ℚ) 1 - (![0, 0, 0] : Array3 ℚ) 1) -
          ((![10, 10, 5] : Array3 ℚ) 2 - (![0, 0, 0] : Array3 ℚ) 2)| := by
    right
    norm_num [tolerance, serial, lt_abs]
  rw [create_domain_of_raise serial fresh ![0, 0, 0] ![10, 10, 5] 3 h]
  refine ⟨rfl, rfl, ?_, rfl, rfl, ?_⟩
  · norm_num [fresh, SystemCommon.new]
  · intro hEq
    have hc := congrArg SystemCommon.grid_cell_size hEq
    norm_num [fresh, SystemCommon.new] at hc

/-- C2, amended: on every box that fails the cubic check, for every cutoff, `create_domain`
raises `std::logic_error( "Dimensions must be cubic" )` after having assigned `halo_width`
(the cutoff), `ranks_per_dim` (the partitioner's answer) and `grid_cell_size`
(`(high[0] - low[0]) / grid_num_cells`), and nothing else: every other member keeps its
value, and in particular no grid is built (`global_grid`, `local_grid`, `global_mesh_*`,
`rank_dim_pos` and the corner members are those before the call). -/
theorem create_domain_raise_state (env : Cajita M G) (s : SystemCommon G)
    (low high : Array3 ℚ) (cutoff : ℚ)
    (h : tolerance env < |(high 0 - low 0) - (high 1 - low 1)| ∨
      tolerance env < |(high 1 - low 1) - (high 2 - low 2)|) :
    (create_domain env s low high cutoff).1 = Status.logic_error "Dimensions must be cubic" ∧
      (create_domain env s low high cutoff).2 =
        { s with
          halo_width := cutoff
          ranks_per_dim := env.ranksPerDimension
          grid_cell_size := (high 0 - low 0) / (s.grid_num_cells : ℚ) } ∧
      (create_domain env s low high cutoff).2.global_grid = s.global_grid ∧
      (create_domain env s low high cutoff).2.local_grid = s.local_grid ∧
      (create_domain env s low high cutoff).2.global_mesh_x = s.global_mesh_x ∧
      (create_domain env s low high cutoff).2.global_mesh_y = s.global_mesh_y ∧
      (create_domain env s low high cutoff).2.global_mesh_z = s.global_mesh_z ∧
      (create_domain env s low high cutoff).2.rank_dim_pos = s.rank_dim_pos := by
  rw [create_domain_of_raise env s low high cutoff h]
  exact ⟨rfl, rfl, rfl, rfl, rfl, rfl, rfl, rfl⟩

/-- C2, amended, at the spec's box `(0,0,0)`-`(10,10,5)` on a freshly constructed manager:
the call raises and both grid pointers are still null. -/
theorem create_domain_raise_state_witness :
    (create_domain serial fresh ![0, 0, 0] ![10, 10, 5] 3).1 =
        Status.logic_error "Dimensions must be cubic" ∧
      (create_domain serial fresh ![0, 0, 0] ![10, 10, 5] 3).2.global_grid = none ∧
      (create_domain serial fresh ![0, 0, 0] ![10, 10, 5] 3).2.local_grid = none := by
  have h := create_domain_raise_state serial fresh ![0, 0, 0] ![10, 10, 5] 3
    (Or.inr (by norm_num [tolerance, serial, lt_abs]))
  exact ⟨h.1, h.2.2.1, h.2.2.2.1⟩

end C2

/-! ## C3: the default cutoff of the two-argument `create_domain` -/

section C3

/-- C3 on the code, at the cubic box `(0,0,5)`-`(10,10,15)`: every axis span is `10`, but
the two-argument `create_domain` is the three-argument one with cutoff
`max( max( 10 - 0, 15 - 0 ), 15 - 5 ) = 15`, because its second span is
`high_corner[2] - low_corner[1]`.  It stores `halo_width = 15` and a halo of `3000` cells
where the cutoff `10` gives `halo_width = 10` and `2000` cells. -/
theorem create_domain2_cutoff_on_shifted_box :
    max (max (((![10, 10, 15] : Array3 ℚ) 0) - ((![0, 0, 5] : Array3 ℚ) 0))
        (((![10, 10, 15] : Array3 ℚ) 1) - ((![0, 0, 5] : Array3 ℚ) 1)))
        (((![10, 10, 15] : Array3 ℚ) 2) - ((![0, 0, 5] : Array3 ℚ) 2)) = 10 ∧
      create_domain2 serial fresh ![0, 0, 5] ![10, 10, 15] =
        create_domain serial fresh ![0, 0, 5] ![10, 10, 15] 15 ∧
      (create_domain2 serial fresh ![0, 0, 5] ![10, 10, 15]).1 = Status.ok ∧
      (create_domain2 serial fresh ![0, 0, 5] ![10, 10, 15]).2.halo_width = 15 ∧
      (create_domain2 serial fresh ![0, 0, 5] ![10, 10, 15]).2.local_grid =
        some { halo_cell_width := 3000 } ∧
      (create_domain serial fresh ![0, 0, 5] ![10, 10, 15] 10).1 = Status.ok ∧
      (create_domain serial fresh ![0, 0, 5] ![10, 10, 15] 10).2.halo_width = 10 ∧
      (create_domain serial fresh ![0, 0, 5] ![10, 10, 15] 10).2.local_grid =
        some { halo_cell_width := 2000 } := by
  have hcut : create_domain2 serial fresh ![0, 0, 5] ![10, 10, 15] =
      create_domain serial fresh ![0, 0, 5] ![10, 10, 15] 15 := by
    unfold create_domain2
    norm_num
  have hok : ∀ c : ℚ, (create_domain serial fresh ![0, 0, 5] ![10, 10, 15] c).1 = Status.ok := by
    intro c
    rw [create_domain_status_of_pass] <;>
      norm_num [fresh, SystemCommon.new, tolerance, serial, abs_le]
  have hp1 : ¬ tolerance serial <
      |((![10, 10, 15] : Array3 ℚ) 0 - (![0, 0, 5] : Array3 ℚ) 0) -
        ((![10, 10, 15] : Array3 ℚ) 1 - (![0, 0, 5] : Array3 ℚ) 1)| := by
    norm_num [tolerance, serial]
  have hp2 : ¬ tolerance serial <
      |((![10, 10, 15] : Array3 ℚ) 1 - (![0, 0, 5] : Array3 ℚ) 1) -
        ((![10, 10, 15] : Array3 ℚ) 2 - (![0, 0, 5] : Array3 ℚ) 2)| := by
    norm_num [tolerance, serial]
  have h15 : (create_domain serial fresh ![0, 0, 5] ![10, 10, 15] 15).2.local_grid =
      some { halo_cell_width := 3000 } := by
    rw [create_domain_local_grid_of_pass _ _ _ _ _ hp1 hp2,
      to_int_fdiv_of_range serial _ _ _ 3000 (by norm_num [fresh, SystemCommon.new])
        (by rw [Int.ceil_eq_iff]; norm_num [fresh, SystemCommon.new]) (by decide)]
  have h10 : (create_domain serial fresh ![0, 0, 5] ![10, 10, 15] 10).2.local_grid =
      some { halo_cell_width := 2000 } := by
    rw [create_domain_local_grid_of_pass _ _ _ _ _ hp1 hp2,
      to_int_fdiv_of_range serial _ _ _ 2000 (by norm_num [fresh, SystemCommon.new])
        (by rw [Int.ceil_eq_iff]; norm_num [fresh, SystemCommon.new]) (by decide)]
  refine ⟨by norm_num, hcut, ?_, ?_, ?_, hok 10, create_domain_halo_width _ _ _ _ _, h10⟩
  · rw [hcut]; exact hok 15
  · rw [hcut]; exact create_domain_halo_width _ _ _ _ _
  · rw [hcut, h15]

end C3

/-! ## C4: cell size and halo width in cells -/

section C4

variable {M G : Type}

end C4

/-! ## C5: the halo width in cells as the cutoff grows -/

section C5

variable {M G : Type}

end C5

/-! ## C6: what `update_domain` passes to the global grid -/

section C6

variable {M G : Type}

end C6

/-! ## C7: what `update_domain` leaves alone -/

section C7

variable {M G : Type}

/-- C7: however `update_domain` ends, the process-grid shape `ranks_per_dim`, the position
`rank_dim_pos`, `halo_width`, `grid_cell_size`, `grid_num_cells`, `global_mesh_x/y/z`, the
counters `N`, `N_max`, `N_local`, `N_ghost`, `ntypes` and the unit constants `boltz`,
`mvv2e`, `dt` are those before the call (so are `atom_style`, `mass` and the local grid
pointer), and the global grid is either untouched or the old one after one
`setNumCellAndOffset`. -/
theorem update_domain_frame (env : Cajita M G) (s : SystemCommon G) (low high : Array3 ℚ) :
    (update_domain env s low high).2.ranks_per_dim = s.ranks_per_dim ∧
      (update_domain env s low high).2.rank_dim_pos = s.rank_dim_pos ∧
      (update_domain env s low high).2.halo_width = s.halo_width ∧
      (update_domain env s low high).2.grid_cell_size = s.grid_cell_size ∧
      (update_domain env s low high).2.grid_num_cells = s.grid_num_cells ∧
      (update_domain env s low high).2.global_mesh_x = s.global_mesh_x ∧
      (update_domain env s low high).2.global_mesh_y = s.global_mesh_y ∧
      (update_domain env s low high).2.global_mesh_z = s.global_mesh_z ∧
      (update_domain env s low high).2.N = s.N ∧
      (update_domain env s low high).2.N_max = s.N_max ∧
      (update_domain env s low high).2.N_local = s.N_local ∧
      (update_domain env s low high).2.N_ghost = s.N_ghost ∧
      (update_domain env s low high).2.ntypes = s.ntypes ∧
      (update_domain env s low high).2.boltz = s.boltz ∧
      (update_domain env s low high).2.mvv2e = s.mvv2e ∧
      (update_domain env s low high).2.dt = s.dt ∧
      (update_domain env s low high).2.atom_style = s.atom_style ∧
      (update_domain env s low high).2.mass = s.mass ∧
      (update_domain env s low high).2.local_grid = s.local_grid ∧
      ((update_domain env s low high).2.global_grid = s.global_grid ∨
        ∃ g num_cell offset, s.global_grid = some g ∧
          (update_domain env s low high).2.global_grid =
            some (env.setNumCellAndOffset g num_cell offset)) := by
  unfold update_domain
  cases hg : s.global_grid with
  | none => simp [hg]
  | some g =>
    unfold update_mesh_info
    cases hl : s.local_grid <;> simp

end C7

/-! ## C8: the population invariant -/

section C8

variable {M G : Type}

/-- C8: the freshly constructed manager has `N = N_max = N_local = N_ghost = 0` and
`ntypes = 1` and satisfies the population invariant; `create_domain` (either overload, any
box and cutoff, however it ends) and `update_domain` leave the four counters as they were,
so a manager that satisfies `N_local + N_ghost ≤ N_max` and `N_local ≤ N` satisfies it
after each of them. -/
theorem population_invariant_preserved (env : Cajita M G) (s : SystemCommon G)
    (low high : Array3 ℚ) (cutoff : ℚ) (u : Unassigned)
    (h : population_invariant s) :
    ((SystemCommon.new u : SystemCommon G).N = 0 ∧
        (SystemCommon.new u : SystemCommon G).N_max = 0 ∧
        (SystemCommon.new u : SystemCommon G).N_local = 0 ∧
        (SystemCommon.new u : SystemCommon G).N_ghost = 0 ∧
        (SystemCommon.new u : SystemCommon G).ntypes = 1 ∧
        population_invariant (SystemCommon.new u : SystemCommon G)) ∧
      ((create_domain env s low high cutoff).2.N = s.N ∧
        (create_domain env s low high cutoff).2.N_max = s.N_max ∧
        (create_domain env s low high cutoff).2.N_local = s.N_local ∧
        (create_domain env s low high cutoff).2.N_ghost = s.N_ghost ∧
        population_invariant (create_domain env s low high cutoff).2) ∧
      ((create_domain2 env s low high).2.N = s.N ∧
        (create_domain2 env s low high).2.N_max = s.N_max ∧
        (create_domain2 env s low high).2.N_local = s.N_local ∧
        (create_domain2 env s low high).2.N_ghost = s.N_ghost ∧
        population_invariant (create_domain2 env s low high).2) ∧
      ((update_domain env s low high).2.N = s.N ∧
        (update_domain env s low high).2.N_max = s.N_max ∧
        (update_domain env s low high).2.N_local = s.N_local ∧
        (update_domain env s low high).2.N_ghost = s.N_ghost ∧
        population_invariant (update_domain env s low high).2) := by
  have hcd : ∀ c : ℚ, (create_domain env s low high c).2.N = s.N ∧
      (create_domain env s low high c).2.N_max = s.N_max ∧
      (create_domain env s low high c).2.N_local = s.N_local ∧
      (create_domain env s low high c).2.N_ghost = s.N_ghost := by
    intro c
    unfold create_domain
    simp only [gt_iff_lt]
    split_ifs <;> simp [update_mesh_info]
  have hud : (update_domain env s low high).2.N = s.N ∧
      (update_domain env s low high).2.N_max = s.N_max ∧
      (update_domain env s low high).2.N_local = s.N_local ∧
      (update_domain env s low high).2.N_ghost = s.N_ghost := by
    unfold update_domain
    cases hg : s.global_grid with
    | none => simp [hg]
    | some g =>
      unfold update_mesh_info
      cases hl : s.local_grid <;> simp
  have key : ∀ t : SystemCommon G,
      (t.N = s.N ∧ t.N_max = s.N_max ∧ t.N_local = s.N_local ∧ t.N_ghost = s.N_ghost) →
      (t.N = s.N ∧ t.N_max = s.N_max ∧ t.N_local = s.N_local ∧ t.N_ghost = s.N_ghost ∧
        population_invariant t) := by
    intro t ht
    obtain ⟨a, b, c, d⟩ := ht
    refine ⟨a, b, c, d, ?_⟩
    unfold population_invariant at h ⊢
    rw [a, b, c, d]
    exact h
  refine ⟨⟨rfl, rfl, rfl, rfl, rfl, ?_⟩, key _ (hcd cutoff), key _ (hcd _), key _ hud⟩
  simp [population_invariant, SystemCommon.new]

/-- C8 on the freshly constructed manager and the cubic box `(0,0,0)`-`(20,20,20)`: the
invariant holds before and after `create_domain`. -/
theorem population_invariant_preserved_witness :
    population_invariant (fresh : SystemCommon SerialGrid) ∧
      population_invariant (create_domain serial fresh ![0, 0, 0] ![20, 20, 20] (5 / 2)).2 ∧
      population_invariant (update_domain serial fresh ![0, 0, 0] ![20, 20, 20]).2 := by
  have h0 : population_invariant (fresh : SystemCommon SerialGrid) := by
    simp [population_invariant, fresh, SystemCommon.new]
  have h := population_invariant_preserved serial fresh ![0, 0, 0] ![20, 20, 20] (5 / 2)
    { halo_width := 0, ranks_per_dim := fun _ => 0, rank_dim_pos := fun _ => 0 } h0
  exact ⟨h0, h.2.1.2.2.2.2, h.2.2.2.2.2.2.2⟩

end C8

/-! ## C9: the aggregate slice operations -/

section C9

/-- C9: on every backend `slice_all` is the calls `slice_x, slice_v, slice_f, slice_type,
slice_id, slice_q` in that order, `slice_integrate` is `slice_x, slice_v, slice_f,
slice_type`, `slice_force` is `slice_x, slice_f, slice_type` and `slice_properties` is
`slice_v, slice_type`; on the recording backend these are exactly the calls logged; each of
the three smaller sequences is a subsequence of the first and holds neither `slice_id` nor
`slice_q`. -/
theorem slice_groupings (σ : Type) (b : Backend σ) (s : σ) :
    (slice_all b s =
        b.calls [Accessor.slice_x, Accessor.slice_v, Accessor.slice_f, Accessor.slice_type,
          Accessor.slice_id, Accessor.slice_q] s ∧
      slice_integrate b s =
        b.calls [Accessor.slice_x, Accessor.slice_v, Accessor.slice_f, Accessor.slice_type] s ∧
      slice_force b s =
        b.calls [Accessor.slice_x, Accessor.slice_f, Accessor.slice_type] s ∧
      slice_properties b s = b.calls [Accessor.slice_v, Accessor.slice_type] s) ∧
    (slice_all recorder [] =
        [Accessor.slice_x, Accessor.slice_v, Accessor.slice_f, Accessor.slice_type,
          Accessor.slice_id, Accessor.slice_q] ∧
      slice_integrate recorder [] =
        [Accessor.slice_x, Accessor.slice_v, Accessor.slice_f, Accessor.slice_type] ∧
      slice_force recorder [] = [Accessor.slice_x, Accessor.slice_f, Accessor.slice_type] ∧
      slice_properties recorder [] = [Accessor.slice_v, Accessor.slice_type]) ∧
    (List.Sublist (slice_integrate recorder []) (slice_all recorder []) ∧
      List.Sublist (slice_force recorder []) (slice_all recorder []) ∧
      List.Sublist (slice_properties recorder []) (slice_all recorder [])) ∧
    (Accessor.slice_id ∉ slice_integrate recorder [] ∧
      Accessor.slice_q ∉ slice_integrate recorder [] ∧
      Accessor.slice_id ∉ slice_force recorder [] ∧
      Accessor.slice_q ∉ slice_force recorder [] ∧
      Accessor.slice_id ∉ slice_properties recorder [] ∧
      Accessor.slice_q ∉ slice_properties recorder []) := by
  refine ⟨⟨rfl, rfl, rfl, rfl⟩, ⟨rfl, rfl, rfl, rfl⟩, ⟨?_, ?_, ?_⟩, ?_⟩
  · decide
  · decide
  · decide
  · decide

end C9

/-! ## C10: the cubic check and the sign of the cell size -/

section C10

variable {M G : Type}

end C10

end CabanaMD
